import Mathlib

/-!
Shallow embedding of the `memory_foam` streaming object-store pipeline
(`src/memory_foam/`): the file record model (`file.py`), the key/glob
filter and page-processing pipeline of the abstract fsspec client
(`client/fsspec.py`), the S3 adapter's listing-entry projection
(`client/s3.py`), the Azure adapter's projection and `close`
(`client/azure.py`), and the dispatch facade (`Client.get_implementation`).

Python machine types are modelled as follows: `str` is `String`, `int` is
`Int`, dictionary fields that may be absent are `Option`, values that may
dynamically be either an `int` or a `str` (Python is untyped; the source
passes `""` as a default for numeric fields) are the sum `PyVal`.
Raising an exception is modelled with `Except`.
-/

namespace MemoryFoam

/-- Python value that is dynamically either an integer or a string.
The source (being untyped) stores `""` in fields annotated `int` or
`datetime` when the store omits them, so projections are given this type. -/
inductive PyVal where
  | int (i : Int)
  | str (s : String)
deriving DecidableEq, Repr

/-- Does the `PyVal` hold a non-negative integer? (`file.py` documents
`size` as "The size of the file in bytes", a non-negative `int`.) -/
def PyVal.isNonnegInt : PyVal → Prop
  | .int i => 0 ≤ i
  | .str _ => False

instance (v : PyVal) : Decidable v.isNonnegInt := by
  cases v <;> simp [PyVal.isNonnegInt] <;> infer_instance

/-- Embedding of `file.py`'s `FilePointer` dataclass: immutable metadata
for a remote object. Field values are whatever the adapter projection
stored (dataclasses do not validate), hence `PyVal` for `size` and
`last_modified`. -/
structure FilePointer where
  source : String
  path : String
  size : PyVal
  version : String
  last_modified : PyVal
deriving DecidableEq, Repr

/-- A generic listing entry as consumed by the abstract client
(`client/fsspec.py`): a dict whose `self._path_key` field is the object
key. Only the key is inspected by `_should_read`. -/
structure Entry where
  key : String
deriving DecidableEq, Repr

/-- Modelled from the spec: `glob.py` (`is_match`) is imported by
`client/fsspec.py` but is not under `src/`. Per the spec (section 4.1),
`is_match(key, matcher?)` is "true when matcher is none, else true iff
matcher matches the basename-bearing full key"; the compiled matcher is
modelled as the predicate `String → Bool` it denotes. -/
def is_match (key : String) (glob_match : Option (String → Bool)) : Bool :=
  match glob_match with
  | none => true
  | some f => f key

/-- Python's `sub in s` substring containment test. -/
def py_in (sub s : String) : Bool :=
  decide (sub.data <:+: s.data)

/-- Python's `s.startswith(pre)`. -/
def py_startswith (pre s : String) : Bool :=
  decide (pre.data <+: s.data)

/-- Python's `s.endswith(suf)`. -/
def py_endswith (suf s : String) : Bool :=
  decide (suf.data <:+ s.data)

/-- Embedding of `Client._is_valid_key` (`client/fsspec.py`):
`not (key.startswith("/") or key.endswith("/") or "//" in key)`. -/
def is_valid_key (key : String) : Bool :=
  !(py_startswith ("/") key || py_endswith ("/") key || py_in ("//") key)

/-- Embedding of `Client._should_read` (`client/fsspec.py`):
`self._is_valid_key(d[self._path_key]) and is_match(d[self._path_key], glob_match)`. -/
def should_read (d : Entry) (glob_match : Option (String → Bool)) : Bool :=
  is_valid_key d.key && is_match d.key glob_match

/-- Embedding of `ClientS3` listing entries (`client/s3.py`): the raw S3
`list_object_versions` record fields read by `info_to_file`. `Option`
marks fields the store may omit from the dict. -/
structure S3Entry where
  Key : String
  Size : Int
  VersionId : Option String
  LastModified : Option Int
deriving DecidableEq, Repr

/-- Embedding of `ClientS3._clean_s3_version` (`client/s3.py`):
`"" if ver is None or ver == "null" else ver`. -/
def clean_s3_version (ver : Option String) : String :=
  match ver with
  | none => ""
  | some v => if v = "null" then "" else v

/-- The pointer fields `ClientS3.info_to_file` (`client/s3.py`) passes to
the `File(...)` constructor call:
`source=self.uri`, `path=v["Key"]`, `size=v["Size"]`,
`version=self._clean_s3_version(v.get("VersionId", ""))`,
`last_modified=v.get("LastModified", "")`. This is the pointer the call
would produce if the constructor accepted these arguments. -/
def info_to_file_fields (uri : String) (v : S3Entry) : FilePointer :=
  { source := uri
    path := v.Key
    size := PyVal.int v.Size
    version := clean_s3_version (some ((v.VersionId).getD ("")))
    last_modified :=
      match v.LastModified with
      | some t => PyVal.int t
      | none => PyVal.str ("") }

/-- Embedding of `ClientS3.info_to_file` (`client/s3.py`): it first
computes `version = self._clean_s3_version(v.get("VersionId", ""))` and
the other field expressions, then calls `File(source=..., path=...,
size=..., version=..., last_modified=...)`. `File` (`file.py`) also
requires the `contents` field and defines no default for it, so this
constructor call raises `TypeError` on every input: the projection never
returns a pointer. -/
def info_to_file (uri : String) (v : S3Entry) : Except String FilePointer :=
  let _fields := info_to_file_fields uri v
  Except.error ("TypeError: File missing 1 required positional argument: contents")

/-- Embedding of `AzureClient` detail records (`client/azure.py`): the
fields of the blob-info dict read by `_info_to_file_pointer`. `Option`
marks fields the store may omit (`v.get(..., "")` in the source). -/
structure AzureBlobInfo where
  name : String
  version_id : Option String
  last_modified : Int
  size : Option Int
deriving DecidableEq, Repr

/-- Embedding of `AzureClient._info_to_file_pointer` (`client/azure.py`):
`FilePointer(source=self.uri, path=self._rel_path(v["name"]),
version=v.get("version_id", ""), last_modified=v["last_modified"],
size=v.get("size", ""))`. `self._rel_path` (which strips the container
component via `fs.split_path`) is passed in as the function `rel_path`. -/
def azure_info_to_file_pointer (uri : String) (rel_path : String → String)
    (v : AzureBlobInfo) : FilePointer :=
  { source := uri
    path := rel_path v.name
    version := (v.version_id).getD ("")
    last_modified := PyVal.int v.last_modified
    size :=
      match v.size with
      | some i => PyVal.int i
      | none => PyVal.str ("") }

/-- The `self.s3` attribute state of a `ClientS3` instance
(`client/s3.py`): `some` once `self.s3 = await fs.get_s3(self.name)` in
`_fetch` has run, `none` while the attribute has never been assigned.
The live pipeline (`iter_files` → `_fetch_prefix`) never calls `_fetch`,
so on every live path the attribute stays unassigned. -/
structure ClientS3State where
  s3 : Option Unit
deriving DecidableEq, Repr

/-- Embedding of `ClientS3.close` (`client/s3.py`):
`self.fs.close_session(get_loop(), self.s3)`. Reading the attribute
`self.s3` raises `AttributeError` when it was never assigned;
`close_session` itself is a collaborator call modelled as succeeding. -/
def client_s3_close (st : ClientS3State) : Except String Unit :=
  match st.s3 with
  | none => Except.error ("AttributeError: ClientS3 object has no attribute s3")
  | some _ => Except.ok ()

/-- Embedding of `AzureClient.close` (`client/azure.py`): the body is
`pass`, so it does nothing whatever the client state is. -/
def azure_client_close (_ : Unit) : Except String Unit :=
  Except.ok ()

/-- A listing page as delivered to `Client._process_pages`
(`client/fsspec.py`). A `sync` page is a Python list of entry dicts; an
`async` page is an async-iterable page object (Azure's
`container_client.list_blobs(...).by_page()` pages), distinguished in the
source by `hasattr(page, "__aiter__")`. -/
inductive Page where
  | sync (entries : List Entry)
  | async (entries : List Entry)
deriving DecidableEq, Repr

/-- The entries a page contains (for a `sync` page the list itself; for
an `async` page the entries its async iteration yields). -/
def Page.entries : Page → List Entry
  | .sync es => es
  | .async es => es

/-- Python truthiness of the page object as tested by `if page:` in
`_process_pages`. A `sync` page is a list, truthy iff non-empty. An
`async` page object (azure.core's `AsyncList`) defines neither
`__bool__` nor `__len__`, so as a plain object it is always truthy,
regardless of whether its iteration yields any entry. -/
def Page.truthy : Page → Bool
  | .sync es => !es.isEmpty
  | .async _ => true

/-- Embedding of `Client._process_page` (and of the filtering done by
`AzureClient._process_page_async`): spawn one read task per entry that
passes `_should_read`, projecting it to a `FilePointer` first. The
backend-specific projection (`self._info_to_file_pointer`, including
Azure's per-entry `_details` fetch) is passed in as `proj`. The returned
pointers stand for the spawned read tasks; each such task enqueues
exactly one `File` on the result queue. -/
def process_page (glob_match : Option (String → Bool))
    (proj : Entry → FilePointer) (page : List Entry) : List FilePointer :=
  (page.filter (fun d => should_read d glob_match)).map proj

/-- Loop of `Client._process_pages` (`client/fsspec.py`): pull pages
until the `None` sentinel, setting `found` on any truthy page, spawning
read tasks for the entries that pass the filter; after the sentinel,
raise `FileNotFoundError` iff `found` is still false. `acc` accumulates
the pointers of all spawned read tasks (equivalently, the `File`s the
completed run delivers). -/
def process_pages_go (pref : String) (glob_match : Option (String → Bool))
    (proj : Entry → FilePointer) :
    List Page → Bool → List FilePointer → Except String (List FilePointer)
  | [], found, acc =>
      if found then Except.ok acc
      else Except.error ("Unable to resolve remote path: " ++ pref)
  | page :: rest, found, acc =>
      process_pages_go pref glob_match proj rest (found || page.truthy)
        (acc ++ process_page glob_match proj page.entries)

/-- Embedding of `Client._process_pages` run to completion on the pages
the listing stage delivered (in order), starting with `found = False`
and no tasks spawned. -/
def process_pages (pref : String) (glob_match : Option (String → Bool))
    (proj : Entry → FilePointer) (pages : List Page) :
    Except String (List FilePointer) :=
  process_pages_go pref glob_match proj pages false []

/-- Observable events of `Client._fetch_list` (`client/fsspec.py`), the
pointer-list-mode pipeline: spawning the read task for a pointer
(`queue_task_result(self._read_file(pointer), result_queue, self.loop)`
— each spawned task enqueues exactly one `File` on the result queue),
joining the current bucket of in-flight tasks
(`await asyncio.gather(*tasks)`, recording how many tasks were awaited),
and enqueueing the result-queue end sentinel
(`await result_queue.put(None)`). -/
inductive FetchEv where
  | spawn (p : FilePointer)
  | join (bucket : Nat)
  | sentinel
deriving DecidableEq, Repr

/-- Loop of `Client._fetch_list`: `i` is the `enumerate` index of the
next pointer and `pending` is `len(tasks)`, the tasks spawned since the
last join. After every spawn the source tests `if i % 5000 == 0` and, if
so, gathers and resets `tasks`; after the loop it gathers the remaining
tasks and enqueues the sentinel. -/
def fetch_list_go : List FilePointer → Nat → Nat → List FetchEv
  | [], _, pending => [FetchEv.join pending, FetchEv.sentinel]
  | p :: rest, i, pending =>
      if i % 5000 = 0 then
        FetchEv.spawn p :: FetchEv.join (pending + 1) :: fetch_list_go rest (i + 1) 0
      else
        FetchEv.spawn p :: fetch_list_go rest (i + 1) (pending + 1)

/-- Embedding of `Client._fetch_list` run on a pointer list: the event
trace starting from `i = 0` and an empty `tasks` list. -/
def fetch_list (pointers : List FilePointer) : List FetchEv :=
  fetch_list_go pointers 0 0

/-- The pointers whose read tasks a trace spawned, in spawn order. -/
def spawned (tr : List FetchEv) : List FilePointer :=
  tr.filterMap (fun e =>
    match e with
    | FetchEv.spawn p => some p
    | _ => none)

/-- For each join event of the trace, in order, the total number of read
tasks spawned before that join; `c` is the running spawn count. The last
element corresponds to the final gather after the loop, the earlier ones
to the in-loop `if i % 5000 == 0` joins. -/
def join_spawn_counts : List FetchEv → Nat → List Nat
  | [], _ => []
  | FetchEv.spawn _ :: r, c => join_spawn_counts r (c + 1)
  | FetchEv.join _ :: r, c => c :: join_spawn_counts r c
  | FetchEv.sentinel :: r, c => join_spawn_counts r c

/-- Number of joins `_fetch_list` performs for a list of `n` pointers
whose first `enumerate` index is `i`: one per in-loop `i % 5000 == 0`
test that fires, plus the final gather. -/
def join_count_nat : Nat → Nat → Nat
  | 0, _ => 1
  | n + 1, i => (if i % 5000 = 0 then 1 else 0) + join_count_nat n (i + 1)

/-- Embedding of Python `s.rstrip("/")`: remove the trailing run of
`/` characters. -/
def py_rstrip_slash (s : String) : String :=
  String.mk ((s.data.reverse.dropWhile (fun c => c = '/')).reverse)

/-- Embedding of Python `s.lstrip("/")`: remove the leading run of `/`
characters. -/
def py_lstrip_slash (s : String) : String :=
  String.mk (s.data.dropWhile (fun c => c = '/'))

/-- `DELIMITER = "/"` (`client/fsspec.py`). -/
def DELIMITER : String := "/"

/-- Embedding of the start prefix handed to `Client.iter_files` by the
dispatch facade (`__init__.py`): `client.iter_files(path.rstrip("/"), glob)`
strips the trailing `/` tolerated on the URI prefix. -/
def iter_files_start (path : String) : String :=
  py_rstrip_slash path

/-- Embedding of the normalization at the top of `Client._fetch_prefix`
(`client/fsspec.py`): `if prefix: prefix = prefix.lstrip(DELIMITER) +
DELIMITER` — a Python string is truthy iff non-empty. -/
def fetch_start_normalize (start : String) : String :=
  if start ≠ "" then py_lstrip_slash start ++ DELIMITER else start

/-- The listing prefix actually used by the listing stage for a given
starting URI prefix: `__init__.iter_files` strips trailing delimiters,
then `_fetch_prefix` normalizes the result before passing it to
`_get_pages`. -/
def used_listing_pref (path : String) : String :=
  fetch_start_normalize (iter_files_start path)

/-- The listing prefix as claim C5 words it (the spec side of the
refinement): first strip the trailing `/` tolerated on the URI prefix;
then, iff the prefix is non-empty, strip the leading delimiter and
append a single trailing delimiter; an empty prefix is left empty (and
lists the whole bucket). -/
def spec_listing_pref (path : String) : String :=
  let p := py_rstrip_slash path
  if p = "" then "" else py_lstrip_slash p ++ "/"

/-- Phase of one spawned read task (`Client._read_file`,
`client/fsspec.py`): `waiting` before it acquires
`max_concurrent_reads`, `reading` while it executes the body of the
`async with self.max_concurrent_reads:` block (the store download),
`finished` after the block exits and the semaphore is released. -/
inductive TaskPhase where
  | waiting
  | reading
  | finished
deriving DecidableEq, Repr

/-- Width of the read semaphore:
`max_concurrent_reads = asyncio.Semaphore(32)` (`client/fsspec.py`). -/
def max_concurrent_reads : Nat := 32

/-- Number of read tasks currently executing the body of `_read_file`
(equivalently, currently holding the semaphore). -/
def reading_count (ts : List TaskPhase) : Nat :=
  ts.countP (fun t => t == TaskPhase.reading)

/-- One cooperative-scheduler step of the read stage. The pipeline may
spawn a new read task at any time; `async with self.max_concurrent_reads`
lets a waiting task enter the body only when fewer than 32 tasks hold
the semaphore (`asyncio.Semaphore` blocks the acquire otherwise), and a
task that leaves the body releases the semaphore. -/
inductive ReadStep : List TaskPhase → List TaskPhase → Prop where
  | spawn (ts : List TaskPhase) : ReadStep ts (ts ++ [TaskPhase.waiting])
  | acquire (pre post : List TaskPhase)
      (h : reading_count (pre ++ TaskPhase.waiting :: post) < max_concurrent_reads) :
      ReadStep (pre ++ TaskPhase.waiting :: post) (pre ++ TaskPhase.reading :: post)
  | release (pre post : List TaskPhase) :
      ReadStep (pre ++ TaskPhase.reading :: post) (pre ++ TaskPhase.finished :: post)

/-- States of the read stage reachable from the start of a pipeline run
(no tasks spawned). -/
inductive ReadReachable : List TaskPhase → Prop where
  | init : ReadReachable []
  | step {s t : List TaskPhase} : ReadReachable s → ReadStep s t → ReadReachable t

/-- Python `str.lower()` as applied to URI schemes: lowercase each
character (schemes are ASCII, where `Char.toLower` agrees with
Python). -/
def py_lower (s : String) : String :=
  String.mk (s.data.map Char.toLower)

/-- Characters CPython's `urlparse` accepts in a URI scheme after the
first one: ASCII letters, digits, `+`, `-`, `.`. -/
def is_scheme_char (c : Char) : Bool :=
  c.isAlphanum || c = '+' || c = '-' || c = '.'

/-- The raw (case-preserved) scheme component CPython's `urlparse`
recognizes in `url`: the non-empty run of characters before the first
`:`, starting with an ASCII letter and made of scheme characters;
`none` when there is no colon or the candidate is invalid (urlparse
then reports an empty scheme). -/
def urlparse_scheme_raw (url : String) : Option String :=
  let pre := url.data.takeWhile (fun c => c ≠ ':')
  if pre.length = url.data.length then none
  else if pre ≠ [] ∧ (pre.headD ' ').isAlpha ∧ pre.all is_scheme_char then
    some (String.mk pre)
  else none

/-- `urlparse(url).scheme` as read by `Client.get_implementation`
(`client/fsspec.py`): the recognized scheme, already lowercased by
`urlparse` itself, or `""` when none is recognized. -/
def urlparse_scheme (url : String) : String :=
  match urlparse_scheme_raw url with
  | none => ""
  | some pre => py_lower pre

/-- The three store adapters `Client.get_implementation` can select. -/
inductive AdapterKind where
  | s3
  | gcs
  | azure
deriving DecidableEq, Repr

/-- `ClientS3.protocol` (`client/s3.py`). -/
def s3_protocol : String := "s3"

/-- Modelled from the spec: `gcs.py` (`GCSClient`) is imported by
`client/fsspec.py` but is not under `src/`; per the spec's dispatch
table ("map `s3`→S3, `gs`→GCS, `az`→Azure"), its protocol is `gs`. -/
def gcs_protocol : String := "gs"

/-- `AzureClient.protocol` (`client/azure.py`). -/
def azure_protocol : String := "az"

/-- Embedding of `Client.get_implementation` (`client/fsspec.py`): parse
the scheme with `urlparse`; raise `NotImplementedError` (the spec's
`UnsupportedScheme` kind) when no scheme was identified; otherwise
lowercase it once more and compare against the three adapter protocols,
raising `NotImplementedError` when none matches. This runs
synchronously, before any client is constructed and before any listing
or reading starts. -/
def get_implementation (url : String) : Except String AdapterKind :=
  if urlparse_scheme url = "" then
    Except.error ("Unsupported protocol: urlparse was not able to identify a scheme")
  else if py_lower (urlparse_scheme url) = s3_protocol then
    Except.ok AdapterKind.s3
  else if py_lower (urlparse_scheme url) = gcs_protocol then
    Except.ok AdapterKind.gcs
  else if py_lower (urlparse_scheme url) = azure_protocol then
    Except.ok AdapterKind.azure
  else
    Except.error ("Unsupported protocol: " ++ py_lower (urlparse_scheme url))

end MemoryFoam

namespace MemoryFoam

/-- C2: `_should_read(d, m)` is true iff `is_valid_key(d.key)` and
`is_match(d.key, m)`, and `is_valid_key` is false exactly when the key
starts with `/`, ends with `/`, or contains `//`. -/
theorem c2_should_read_iff (d : Entry) (m : Option (String → Bool)) :
    (should_read d m = (is_valid_key d.key && is_match d.key m))
    ∧ (is_valid_key d.key = false ↔
        (py_startswith ("/") d.key = true ∨ py_endswith ("/") d.key = true ∨
          py_in ("//") d.key = true)) := by
  refine ⟨rfl, ?_⟩
  cases h1 : py_startswith ("/") d.key <;> cases h2 : py_endswith ("/") d.key <;>
    cases h3 : py_in ("//") d.key <;> simp [is_valid_key, h1, h2, h3]

/-- C3 (code evaluated at the failing input): `info_to_file` raises
`TypeError` on every S3 listing entry — here one with
`VersionId == "null"` — because the `File(...)` call omits the required
`contents` field (`file.py` defines no default), so no pointer is ever
projected. The version expression the source computes just before the
raise, `self._clean_s3_version(v.get("VersionId", ""))`, does implement
the claimed normalization: `""` for an absent or `"null"` version, any
other value unchanged. -/
theorem c3_info_to_file_raises :
    (info_to_file ("s3://bucket")
        { Key := "a.txt", Size := 3, VersionId := some "null",
          LastModified := none } =
      Except.error ("TypeError: File missing 1 required positional argument: contents"))
    ∧ (∀ vid : Option String,
        clean_s3_version (some (vid.getD (""))) =
          match vid with
          | none => ""
          | some s => if s = "null" then "" else s) := by
  refine ⟨rfl, ?_⟩
  intro vid
  cases vid with
  | none => rfl
  | some s => rfl

/-- C8 (code evaluated at the failing input): `ClientS3.close` raises
`AttributeError` on a client whose `self.s3` attribute was never
assigned — which is every client the live pipeline produces, since only
the dead `_fetch` method assigns it — while `AzureClient.close` (body
`pass`) returns without raising. So `close` is not safe to call for the
S3 adapter, contradicting the claim and the spec's own requirement. -/
theorem c8_s3_close_raises :
    client_s3_close { s3 := none } =
      Except.error ("AttributeError: ClientS3 object has no attribute s3")
    ∧ azure_client_close () = Except.ok () :=
  ⟨rfl, rfl⟩

/-- C9 (code evaluated at the failing input): an Azure blob-info record
that omits the `size` field projects to a pointer whose `size` is the
empty string (`v.get("size", "")`), not a non-negative integer. This
contradicts the claim and the `int` annotation documented in
`file.py`. -/
theorem c9_azure_size_not_int :
    (azure_info_to_file_pointer ("az://cont") (fun s => s)
        { name := "a.txt", version_id := none, last_modified := 0,
          size := none }).size = PyVal.str ("")
    ∧ ¬ (azure_info_to_file_pointer ("az://cont") (fun s => s)
        { name := "a.txt", version_id := none, last_modified := 0,
          size := none }).size.isNonnegInt := by
  exact ⟨rfl, by decide⟩

/-- Helper for C1: when every entry of every page is filtered out by
`_should_read`, the page-processing loop spawns no tasks and its result
is decided purely by whether `found` was or becomes true, i.e. by the
truthiness of the delivered pages. -/
theorem process_pages_go_filtered (pref : String)
    (glob_match : Option (String → Bool)) (proj : Entry → FilePointer)
    (pages : List Page)
    (hf : ∀ p ∈ pages, ∀ d ∈ p.entries, should_read d glob_match = false) :
    ∀ (found : Bool) (acc : List FilePointer),
      process_pages_go pref glob_match proj pages found acc =
        if found || pages.any (fun p => p.truthy) then Except.ok acc
        else Except.error ("Unable to resolve remote path: " ++ pref) := by
  induction pages with
  | nil => intro found acc; simp [process_pages_go]
  | cons page rest ih =>
    intro found acc
    have hpage : process_page glob_match proj page.entries = [] := by
      have : page.entries.filter (fun d => should_read d glob_match) = [] := by
        rw [List.filter_eq_nil_iff]
        intro d hd
        simp [hf page (by simp) d hd]
      simp [process_page, this]
    have hrest : ∀ p ∈ rest, ∀ d ∈ p.entries, should_read d glob_match = false := by
      intro p hp d hd
      exact hf p (by simp [hp]) d hd
    rw [process_pages_go, hpage, List.append_nil, ih hrest]
    simp [Bool.or_assoc]

/-- C1 fails as stated: a run whose only delivered page is an async page
object yielding zero entries (so no delivered page ever contained any
entry) completes with zero Files and no error — `if page:` is true for
any async page object — instead of raising `NotFound` for the prefix. -/
theorem c1_counterexample :
    (∀ p ∈ [Page.async ([] : List Entry)], p.entries = [])
    ∧ process_pages ("empty/") none
        (fun d => { source := "s3://b", path := d.key, size := PyVal.int 0,
                    version := "", last_modified := PyVal.str ("") })
        [Page.async []] = Except.ok [] := by
  refine ⟨?_, rfl⟩
  intro p hp
  rw [List.mem_singleton] at hp
  subst hp
  rfl

/-- C1 amended: if every delivered page was falsy — a synchronous page
with no entries (in particular when no page at all was delivered) — the
loop raises `NotFound` for the prefix; if at least one delivered page
was truthy (a synchronous page with at least one entry, or any async
page object) and every entry was filtered out by key validity or the
glob, the run completes with zero Files and no error. -/
theorem c1_not_found_flag (pref : String)
    (glob_match : Option (String → Bool)) (proj : Entry → FilePointer)
    (pages : List Page) :
    ((∀ p ∈ pages, p.truthy = false) →
      process_pages pref glob_match proj pages =
        Except.error ("Unable to resolve remote path: " ++ pref))
    ∧ ((∃ p ∈ pages, p.truthy = true) →
        (∀ p ∈ pages, ∀ d ∈ p.entries, should_read d glob_match = false) →
        process_pages pref glob_match proj pages = Except.ok []) := by
  constructor
  · intro hfalsy
    have hf : ∀ p ∈ pages, ∀ d ∈ p.entries, should_read d glob_match = false := by
      intro p hp d hd
      exfalso
      have := hfalsy p hp
      cases p with
      | sync es =>
        simp [Page.truthy, List.isEmpty_iff] at this
        subst this
        simp [Page.entries] at hd
      | async es => simp [Page.truthy] at this
    rw [process_pages, process_pages_go_filtered pref glob_match proj pages hf]
    have : pages.any (fun p => p.truthy) = false := by
      simp only [List.any_eq_false]
      intro p hp
      simp [hfalsy p hp]
    simp [this]
  · intro htruthy hf
    rw [process_pages, process_pages_go_filtered pref glob_match proj pages hf]
    have : pages.any (fun p => p.truthy) = true := by
      rw [List.any_eq_true]
      obtain ⟨p, hp, ht⟩ := htruthy
      exact ⟨p, hp, ht⟩
    simp [this]

/-- C1 amended, witnessed on concrete runs: one empty sync page raises
`NotFound`; one sync page whose single entry `/bad` is rejected by
`is_valid_key` completes with zero Files. -/
theorem c1_not_found_flag_witness :
    process_pages ("p/") none
      (fun d => { source := "s3://b", path := d.key, size := PyVal.int 0,
                  version := "", last_modified := PyVal.str ("") })
      [Page.sync []] =
        Except.error ("Unable to resolve remote path: p/")
    ∧ process_pages ("p/") none
      (fun d => { source := "s3://b", path := d.key, size := PyVal.int 0,
                  version := "", last_modified := PyVal.str ("") })
      [Page.sync [{ key := "/bad" }]] = Except.ok [] := by
  constructor
  · exact (c1_not_found_flag ("p/") none _ [Page.sync []]).1 (by decide)
  · exact (c1_not_found_flag ("p/") none _ [Page.sync [{ key := "/bad" }]]).2
      ⟨Page.sync [{ key := "/bad" }], by decide, by decide⟩ (by decide)

/-- Helper for C4: the trace spawns exactly the input pointers, in list
order. -/
theorem spawned_fetch_list_go (ps : List FilePointer) :
    ∀ i pending, spawned (fetch_list_go ps i pending) = ps := by
  induction ps with
  | nil => intro i pending; rfl
  | cons p rest ih =>
    intro i pending
    by_cases h : i % 5000 = 0 <;>
      simp [fetch_list_go, h, spawned, List.filterMap_cons] <;>
      simpa [spawned] using ih (i + 1) _

/-- Helper for C4: every trace contains at least one join (the final
gather), so the join spawn-count list is never empty. -/
theorem join_spawn_counts_ne_nil (ps : List FilePointer) :
    ∀ i pending c, join_spawn_counts (fetch_list_go ps i pending) c ≠ [] := by
  induction ps with
  | nil => intro i pending c; simp [fetch_list_go, join_spawn_counts]
  | cons p rest ih =>
    intro i pending c
    by_cases h : i % 5000 = 0
    · simp [fetch_list_go, h, join_spawn_counts]
    · simp only [fetch_list_go, if_neg h, join_spawn_counts]
      exact ih (i + 1) (pending + 1) (c + 1)

/-- Helper for C4: every in-loop join (all joins but the final gather)
happens right after a spawn whose `enumerate` index `i` satisfied
`i % 5000 == 0`, i.e. after spawn counts `c` with `(c - 1) % 5000 = 0`. -/
theorem join_spawn_counts_in_loop (ps : List FilePointer) :
    ∀ i pending, ∀ x ∈ (join_spawn_counts (fetch_list_go ps i pending) i).dropLast,
      1 ≤ x ∧ (x - 1) % 5000 = 0 := by
  induction ps with
  | nil => intro i pending x hx; simp [fetch_list_go, join_spawn_counts] at hx
  | cons p rest ih =>
    intro i pending x hx
    by_cases h : i % 5000 = 0
    · simp only [fetch_list_go, if_pos h, join_spawn_counts] at hx
      rw [List.dropLast_cons_of_ne_nil (join_spawn_counts_ne_nil rest (i + 1) 0 (i + 1))]
        at hx
      rcases List.mem_cons.mp hx with hx | hx
      · subst hx
        exact ⟨Nat.le_add_left 1 i, by simpa using h⟩
      · exact ih (i + 1) 0 x hx
    · simp only [fetch_list_go, if_neg h, join_spawn_counts] at hx
      exact ih (i + 1) (pending + 1) x hx

/-- Helper for C4: the number of joins in the trace depends only on the
number of pointers and the starting index. -/
theorem join_spawn_counts_length (ps : List FilePointer) :
    ∀ i pending c, (join_spawn_counts (fetch_list_go ps i pending) c).length =
      join_count_nat ps.length i := by
  induction ps with
  | nil => intro i pending c; rfl
  | cons p rest ih =>
    intro i pending c
    by_cases h : i % 5000 = 0
    · simp [fetch_list_go, h, join_spawn_counts, join_count_nat, ih (i + 1)]
      omega
    · simp [fetch_list_go, h, join_spawn_counts, join_count_nat, ih (i + 1)]

/-- Helper for C4: closed form for the number of joins. -/
theorem join_count_nat_closed (n : Nat) :
    ∀ i, join_count_nat n i =
      (n + i % 5000 + 4999) / 5000 - (i % 5000 + 4999) / 5000 + 1 := by
  induction n with
  | zero => intro i; simp [join_count_nat]
  | succ m ih =>
    intro i
    rw [join_count_nat, ih (i + 1)]
    split <;> omega

/-- Helper for C4: the trace always ends with the final gather followed
by the result-queue sentinel, and the sentinel appears nowhere else. -/
theorem fetch_list_go_ends (ps : List FilePointer) :
    ∀ i pending, ∃ tr b, fetch_list_go ps i pending = tr ++ [FetchEv.join b, FetchEv.sentinel]
      ∧ ∀ e ∈ tr, e ≠ FetchEv.sentinel := by
  induction ps with
  | nil =>
    intro i pending
    exact ⟨[], pending, rfl, by simp⟩
  | cons p rest ih =>
    intro i pending
    by_cases h : i % 5000 = 0
    · obtain ⟨tr, b, htr, hs⟩ := ih (i + 1) 0
      refine ⟨FetchEv.spawn p :: FetchEv.join (pending + 1) :: tr, b, ?_, ?_⟩
      · simp [fetch_list_go, h, htr]
      · intro e he
        rcases List.mem_cons.mp he with he | he
        · subst he; simp
        · rcases List.mem_cons.mp he with he | he
          · subst he; simp
          · exact hs e he
    · obtain ⟨tr, b, htr, hs⟩ := ih (i + 1) (pending + 1)
      refine ⟨FetchEv.spawn p :: tr, b, ?_, ?_⟩
      · simp [fetch_list_go, h, htr]
      · intro e he
        rcases List.mem_cons.mp he with he | he
        · subst he; simp
        · exact hs e he

/-- C4 fails as stated: for a list of two pointers, the loop's
`if i % 5000 == 0` fires at `i = 0`, so the first in-loop batch join
happens after a single spawn, not after 5000 spawns (the run joins after
spawn counts 1 and then 2 at the final gather). -/
theorem c4_counterexample :
    join_spawn_counts
        (fetch_list
          [{ source := "s3://b", path := "a", size := PyVal.int 0,
             version := "", last_modified := PyVal.str ("") },
           { source := "s3://b", path := "b", size := PyVal.int 0,
             version := "", last_modified := PyVal.str ("") }]) 0 = [1, 2]
    ∧ (join_spawn_counts
        (fetch_list
          [{ source := "s3://b", path := "a", size := PyVal.int 0,
             version := "", last_modified := PyVal.str ("") },
           { source := "s3://b", path := "b", size := PyVal.int 0,
             version := "", last_modified := PyVal.str ("") }]) 0).dropLast = [1]
    ∧ ¬ (1 % 5000 = 0) := by
  refine ⟨rfl, rfl, by decide⟩

/-- C4 amended: read tasks are spawned one per pointer in list order;
the pipeline joins the current bucket after the first spawn and
thereafter after every 5000 further spawns (in-loop joins occur exactly
at spawn counts `c` with `(c - 1) % 5000 = 0`, because the source tests
`i % 5000 == 0` with the 0-based `enumerate` index `i`); the trace ends
with a final join of the remaining bucket followed by the result-queue
end sentinel, which occurs nowhere else; and a list of 12,003 pointers
spawns 12,003 read tasks (hence delivers 12,003 Files) with exactly 3
in-loop batch joins. -/
theorem c4_fetch_list_batching (ps : List FilePointer) :
    (spawned (fetch_list ps) = ps)
    ∧ (∀ x ∈ (join_spawn_counts (fetch_list ps) 0).dropLast,
        1 ≤ x ∧ (x - 1) % 5000 = 0)
    ∧ (∃ tr b, fetch_list ps = tr ++ [FetchEv.join b, FetchEv.sentinel]
        ∧ ∀ e ∈ tr, e ≠ FetchEv.sentinel)
    ∧ (ps.length = 12003 →
        (spawned (fetch_list ps)).length = 12003
        ∧ ((join_spawn_counts (fetch_list ps) 0).dropLast).length = 3) := by
  refine ⟨spawned_fetch_list_go ps 0 0, join_spawn_counts_in_loop ps 0 0,
    fetch_list_go_ends ps 0 0, ?_⟩
  intro hlen
  constructor
  · simp only [fetch_list]
    rw [spawned_fetch_list_go ps 0 0, hlen]
  · simp only [fetch_list]
    rw [List.length_dropLast, join_spawn_counts_length ps 0 0 0, hlen,
      join_count_nat_closed]

/-- C4 amended, witnessed: the in-loop join characterization applied to
the first join of a two-pointer run, and the 12,003-pointer count
conclusion applied to a concrete 12,003-pointer list. -/
theorem c4_fetch_list_batching_witness :
    (1 ≤ 1 ∧ (1 - 1) % 5000 = 0)
    ∧ ((spawned (fetch_list (List.replicate 12003
          { source := "s3://b", path := "a", size := PyVal.int 0,
            version := "", last_modified := PyVal.str ("") }))).length = 12003
        ∧ ((join_spawn_counts (fetch_list (List.replicate 12003
            { source := "s3://b", path := "a", size := PyVal.int 0,
              version := "", last_modified := PyVal.str ("") })) 0).dropLast).length = 3) := by
  constructor
  · exact (c4_fetch_list_batching
      [{ source := "s3://b", path := "a", size := PyVal.int 0,
         version := "", last_modified := PyVal.str ("") },
       { source := "s3://b", path := "b", size := PyVal.int 0,
         version := "", last_modified := PyVal.str ("") }]).2.1 1 (by decide)
  · exact (c4_fetch_list_batching (List.replicate 12003
      { source := "s3://b", path := "a", size := PyVal.int 0,
        version := "", last_modified := PyVal.str ("") })).2.2.2
      (by rw [List.length_replicate])

/-- C5: the listing prefix actually used (the composition of
`__init__.iter_files`' trailing-strip with `_fetch_prefix`'s
normalization) equals the claim's description: strip the trailing `/`,
then, iff the result is non-empty, strip the leading delimiter and
append a single trailing delimiter, leaving an empty prefix empty. -/
theorem c5_listing_pref_eq (path : String) :
    used_listing_pref path = spec_listing_pref path := by
  unfold used_listing_pref spec_listing_pref fetch_start_normalize iter_files_start DELIMITER
  by_cases h : py_rstrip_slash path = "" <;> simp [h]

/-- C6: in every reachable state of the read stage, at most 32 read
tasks are concurrently inside the body of `_read_file`: a task enters
the body only through the `acquire` step of the width-32 semaphore and
leaves it through `release`. -/
theorem c6_reading_bounded (ts : List TaskPhase) (h : ReadReachable ts) :
    reading_count ts ≤ max_concurrent_reads := by
  induction h with
  | init => simp [reading_count]
  | step _ hstep ih =>
    cases hstep with
    | spawn ts' =>
      simpa [reading_count, List.countP_append, List.countP_cons] using ih
    | acquire pre post hlt =>
      simp only [reading_count, List.countP_append, List.countP_cons] at hlt ⊢
      simp at hlt ⊢
      omega
    | release pre post =>
      simp only [reading_count, List.countP_append, List.countP_cons] at ih ⊢
      simp at ih ⊢
      omega

/-- C6 witnessed on a concrete reachable state: one spawned task that
has acquired the semaphore and is reading. -/
theorem c6_reading_bounded_witness :
    reading_count [TaskPhase.reading] ≤ max_concurrent_reads :=
  c6_reading_bounded _
    (ReadReachable.step
      (ReadReachable.step ReadReachable.init (ReadStep.spawn []))
      (ReadStep.acquire [] [] (by decide)))

/-- Helper for C7/C10: packing a valid codepoint and unpacking it gives
the same `Nat` back. -/
theorem char_toNat_ofNat (n : Nat) (h : n.isValidChar) :
    (Char.ofNat n).toNat = n := by
  rw [Char.ofNat, dif_pos h]
  rfl

/-- Helper for C7/C10: ASCII lowering is idempotent on characters. -/
theorem char_toLower_idem (c : Char) : c.toLower.toLower = c.toLower := by
  unfold Char.toLower
  by_cases h : c.toNat ≥ 65 ∧ c.toNat ≤ 90
  · rw [if_pos h]
    have hv : (c.toNat + 32).isValidChar := Or.inl (by omega)
    have ht : (Char.ofNat (c.toNat + 32)).toNat = c.toNat + 32 :=
      char_toNat_ofNat _ hv
    rw [ht, if_neg (by omega)]
  · rw [if_neg h, if_neg h]

/-- Helper for C7/C10: Python `.lower()` is idempotent. -/
theorem py_lower_idem (s : String) : py_lower (py_lower s) = py_lower s := by
  unfold py_lower
  rw [List.map_map]
  refine congrArg String.mk (List.map_congr_left ?_)
  intro c _
  exact char_toLower_idem c

/-- Helper for C7/C10: the scheme reported by `urlparse` is already
lowercase, so the source's extra `.lower()` leaves it unchanged. -/
theorem urlparse_scheme_lower (url : String) :
    py_lower (urlparse_scheme url) = urlparse_scheme url := by
  unfold urlparse_scheme
  cases urlparse_scheme_raw url with
  | none => rfl
  | some pre => exact py_lower_idem pre

/-- Helper for C7/C10: full case analysis of `get_implementation` over
the scheme `urlparse` reports. -/
theorem dispatch_cases (url : String) :
    (urlparse_scheme url ∉ (["s3", "gs", "az"] : List String) →
      ∃ msg, get_implementation url = Except.error msg)
    ∧ (urlparse_scheme url = "s3" →
        get_implementation url = Except.ok AdapterKind.s3)
    ∧ (urlparse_scheme url = "gs" →
        get_implementation url = Except.ok AdapterKind.gcs)
    ∧ (urlparse_scheme url = "az" →
        get_implementation url = Except.ok AdapterKind.azure) := by
  have hl := urlparse_scheme_lower url
  refine ⟨?_, ?_, ?_, ?_⟩
  · intro h
    simp only [List.mem_cons, List.not_mem_nil, or_false, not_or] at h
    obtain ⟨h1, h2, h3⟩ := h
    by_cases h0 : urlparse_scheme url = ""
    · exact ⟨_, by rw [get_implementation, if_pos h0]⟩
    · have hd : get_implementation url =
          Except.error ("Unsupported protocol: " ++ urlparse_scheme url) := by
        rw [get_implementation, if_neg h0, hl, if_neg (by simp [s3_protocol, h1]),
          if_neg (by simp [gcs_protocol, h2]), if_neg (by simp [azure_protocol, h3])]
      exact ⟨_, hd⟩
  · intro h
    rw [get_implementation, hl, h]
    simp [s3_protocol]
  · intro h
    rw [get_implementation, hl, h]
    simp [s3_protocol, gcs_protocol]
  · intro h
    rw [get_implementation, hl, h]
    simp [s3_protocol, gcs_protocol, azure_protocol]

/-- C7: for every URI whose (urlparse-reported) scheme is not one of
`s3`, `gs`, `az`, `get_implementation` raises `UnsupportedScheme`
(`NotImplementedError`) synchronously, before any listing or reading
starts; for schemes `s3`, `gs`, `az` the S3, GCS and Azure adapters are
selected respectively. -/
theorem c7_get_implementation (url : String) :
    (urlparse_scheme url ∉ (["s3", "gs", "az"] : List String) →
      ∃ msg, get_implementation url = Except.error msg)
    ∧ (urlparse_scheme url = "s3" →
        get_implementation url = Except.ok AdapterKind.s3)
    ∧ (urlparse_scheme url = "gs" →
        get_implementation url = Except.ok AdapterKind.gcs)
    ∧ (urlparse_scheme url = "az" →
        get_implementation url = Except.ok AdapterKind.azure) :=
  dispatch_cases url

/-- C7 witnessed on concrete URIs: `ftp` is rejected with an error;
`s3`, `gs`, `az` select their adapters. -/
theorem c7_get_implementation_witness :
    (urlparse_scheme ("ftp://bucket/x") ∉ (["s3", "gs", "az"] : List String)
      ∧ ∃ msg, get_implementation ("ftp://bucket/x") = Except.error msg)
    ∧ get_implementation ("s3://bucket/x") = Except.ok AdapterKind.s3
    ∧ get_implementation ("gs://bucket/x") = Except.ok AdapterKind.gcs
    ∧ get_implementation ("az://cont/x") = Except.ok AdapterKind.azure := by
  refine ⟨⟨by decide, (c7_get_implementation ("ftp://bucket/x")).1 (by decide)⟩,
    (c7_get_implementation ("s3://bucket/x")).2.1 (by decide),
    (c7_get_implementation ("gs://bucket/x")).2.2.1 (by decide),
    (c7_get_implementation ("az://cont/x")).2.2.2 (by decide)⟩

/-- C10: adapter selection is case-insensitive in the URI scheme — for
every URI whose raw scheme lowercases to `s3`, `gs` or `az` (so it
differs from the lowercase spelling only in letter case),
`get_implementation` selects the same adapter as the lowercase scheme
instead of failing. -/
theorem c10_scheme_case_insensitive (url pre : String)
    (h : urlparse_scheme_raw url = some pre) :
    (py_lower pre = "s3" →
      get_implementation url = Except.ok AdapterKind.s3)
    ∧ (py_lower pre = "gs" →
        get_implementation url = Except.ok AdapterKind.gcs)
    ∧ (py_lower pre = "az" →
        get_implementation url = Except.ok AdapterKind.azure) := by
  have hs : urlparse_scheme url = py_lower pre := by
    unfold urlparse_scheme
    rw [h]
  exact ⟨fun hp => (dispatch_cases url).2.1 (hs.trans hp),
    fun hp => (dispatch_cases url).2.2.1 (hs.trans hp),
    fun hp => (dispatch_cases url).2.2.2 (hs.trans hp)⟩

/-- C10 witnessed on the claim's example `S3://bucket/x` (and on mixed
case `gS`, `AZ`): the uppercase spellings select the same adapters as
the lowercase schemes. -/
theorem c10_scheme_case_insensitive_witness :
    get_implementation ("S3://bucket/x") = Except.ok AdapterKind.s3
    ∧ get_implementation ("gS://bucket/x") = Except.ok AdapterKind.gcs
    ∧ get_implementation ("AZ://cont/x") = Except.ok AdapterKind.azure := by
  refine ⟨(c10_scheme_case_insensitive ("S3://bucket/x") ("S3") (by decide)).1 (by decide),
    (c10_scheme_case_insensitive ("gS://bucket/x") ("gS") (by decide)).2.1 (by decide),
    (c10_scheme_case_insensitive ("AZ://cont/x") ("AZ") (by decide)).2.2 (by decide)⟩

end MemoryFoam
